import Mathlib

/-!
# Verification of the Gemini TTS server core (src/index.js)

Shallow embedding of the WAV encoder, the in-memory result caches, the
synthesis gateway and the HTTP request handlers of `src/index.js`
(Railway + VAPI variant, lines 1-252), together with theorems settling the
frozen claims about them.

Bytes are modelled as `List Nat` (each element a byte value), JS strings as
Lean `String`, `Date.now()` timestamps as `Int` (milliseconds), and the two
`Map` caches as association lists with most-recent-first lookup, which gives
the same observable get/set semantics as a JS `Map` under overwriting.
The external Gemini backend is an oracle
`Backend : text → voice → model → Option pcmBytes` (`none` models a response
with no audio payload, which the source turns into the
"No audio produced by model" error).
-/

/-- Byte sequences (`Buffer` contents); each entry is one byte value. -/
abbrev Bytes : Type := List Nat

/-- Little-endian 16-bit encoding, as written by `Buffer.writeUInt16LE`. -/
def u16le (n : Nat) : Bytes :=
  [n % 256, n / 256 % 256]

/-- Little-endian 32-bit encoding, as written by `Buffer.writeUInt32LE`. -/
def u32le (n : Nat) : Bytes :=
  [n % 256, n / 256 % 256, n / 256 ^ 2 % 256, n / 256 ^ 3 % 256]

/-- ASCII bytes of a string, as written by `Buffer.write` with a literal. -/
def asciiBytes (s : String) : Bytes :=
  s.data.map Char.toNat

/-- Embedding of `pcm16ToWav(pcmBuffer, sampleRate, channels, bitsPerSample)`
(src/index.js lines 38-56).  The source fills a 44-byte header with
consecutive writes at offsets 0,4,8,12,16,20,22,24,28,32,34,36,40 — the
fields are contiguous and cover all 44 bytes, so the header is the
concatenation of the field encodings — and then concatenates the header with
the PCM buffer. -/
def pcm16ToWav (pcmBuffer : Bytes) (sampleRate : Nat := 24000)
    (channels : Nat := 1) (bitsPerSample : Nat := 16) : Bytes :=
  let byteRate := sampleRate * channels * (bitsPerSample / 8)
  let blockAlign := channels * (bitsPerSample / 8)
  asciiBytes "RIFF" ++
  u32le (36 + pcmBuffer.length) ++
  asciiBytes "WAVE" ++
  asciiBytes "fmt " ++
  u32le 16 ++
  u16le 1 ++
  u16le channels ++
  u32le sampleRate ++
  u32le byteRate ++
  u16le blockAlign ++
  u16le bitsPerSample ++
  asciiBytes "data" ++
  u32le pcmBuffer.length ++
  pcmBuffer

/-- A cache entry `{ wavBuf | pcm : Buffer, createdAt : number }`
(src/index.js lines 66-67). -/
structure CacheEntry where
  payload : Bytes
  createdAt : Int
  deriving DecidableEq, Repr

/-- One of the in-memory `Map` caches, as an association list; `set`
conses (most-recent-first lookup = `Map` overwrite semantics). -/
abbrev Cache : Type := List (String × CacheEntry)

/-- Embedding of `Map.get`: the most recently set entry under an exactly equal key. -/
def cacheGet (key : String) : Cache → Option CacheEntry
  | [] => none
  | (k, e) :: rest => if k = key then some e else cacheGet key rest

/-- The constant `CACHE_TTL_MS = 10 * 60 * 1000` (src/index.js line 68). -/
def CACHE_TTL_MS : Int := 10 * 60 * 1000

/-- Embedding of `makeKey`, the template literal
`model + "::" + voice + "::" + text` (src/index.js line 69). -/
def makeKey (text voice model : String) : String :=
  model ++ "::" ++ voice ++ "::" ++ text

/-- The key of the WAV cache: `` `wav::${makeKey(...)}` `` (line 72). -/
def wavKey (text voice model : String) : String :=
  "wav::" ++ makeKey text voice model

/-- The key of the PCM cache: `` `pcm::${makeKey(...)}` `` (line 96). -/
def pcmKey (text voice model : String) : String :=
  "pcm::" ++ makeKey text voice model

/-- The external Gemini call `ai.models.generateContent`, abstracted as a
deterministic oracle from `(text, voice, model)` to the decoded PCM bytes of
`response.candidates[0].content.parts[0].inlineData.data`; `none` models a
response with no audio payload. -/
abbrev Backend : Type := String → String → String → Option Bytes

/-- Outcome of one synthesis call: the returned (or thrown) value, the cache
after the call, and whether the external backend was invoked. -/
abbrev SynthOutcome : Type := Except String Bytes × Cache × Bool

/-- The cache-miss tail of `synthesizeToWav` (src/index.js lines 77-92):
call the backend, throw `"No audio produced by model"` when no audio data
comes back, otherwise wrap the PCM as WAV, store it under the wav key with
`createdAt: now`, and return it. -/
def synthesizeToWavMiss (backend : Backend) (text voice model : String)
    (now : Int) (cache : Cache) : SynthOutcome :=
  match backend text voice model with
  | none => (.error "No audio produced by model", cache, true)
  | some pcm =>
      let wavBuf := pcm16ToWav pcm 24000 1 16
      (.ok wavBuf, (wavKey text voice model, ⟨wavBuf, now⟩) :: cache, true)

/-- Embedding of `synthesizeToWav` (src/index.js lines 71-93): return the
cached WAV when a cache entry exists and `now - hit.createdAt < CACHE_TTL_MS`,
otherwise run the miss path.  The call is modelled as atomic at timestamp
`now` (the single `Date.now()` sample the source takes). -/
def synthesizeToWav (backend : Backend) (text voice model : String)
    (now : Int) (cache : Cache) : SynthOutcome :=
  match cacheGet (wavKey text voice model) cache with
  | some hit =>
      if now - hit.createdAt < CACHE_TTL_MS then (.ok hit.payload, cache, false)
      else synthesizeToWavMiss backend text voice model now cache
  | none => synthesizeToWavMiss backend text voice model now cache

/-- The cache-miss tail of `synthesizeToPcm` (src/index.js lines 101-116):
same as the WAV miss path but the raw PCM is stored and returned, under the
pcm key in the PCM cache. -/
def synthesizeToPcmMiss (backend : Backend) (text voice model : String)
    (now : Int) (cache : Cache) : SynthOutcome :=
  match backend text voice model with
  | none => (.error "No audio produced by model", cache, true)
  | some pcm => (.ok pcm, (pcmKey text voice model, ⟨pcm, now⟩) :: cache, true)

/-- Embedding of `synthesizeToPcm` (src/index.js lines 95-117).  Note the
source keeps a separate `pcmCache` Map: the `cache` argument here is that
map, disjoint state from `synthesizeToWav`'s `audioCache`. -/
def synthesizeToPcm (backend : Backend) (text voice model : String)
    (now : Int) (cache : Cache) : SynthOutcome :=
  match cacheGet (pcmKey text voice model) cache with
  | some hit =>
      if now - hit.createdAt < CACHE_TTL_MS then (.ok hit.payload, cache, false)
      else synthesizeToPcmMiss backend text voice model now cache
  | none => synthesizeToPcmMiss backend text voice model now cache

/-- JS whitespace recognised by `String.prototype.trim` (the ASCII fragment:
space, tab, line feed, carriage return, vertical tab, form feed). -/
def isJsWhitespace (c : Char) : Bool :=
  c = ' ' || c = '\t' || c = '\n' || c = '\r' ||
  c = Char.ofNat 11 || c = Char.ofNat 12

/-- Behaviour of `String.prototype.trim` on the character list: drop whitespace from both
ends. -/
def jsTrimList (l : List Char) : List Char :=
  ((l.dropWhile isJsWhitespace).reverse.dropWhile isJsWhitespace).reverse

/-- Embedding of `String.prototype.trim`. -/
def jsTrim (s : String) : String :=
  String.mk (jsTrimList s.data)

/-- JS `v || d` for an optional string `v` (absent and the empty string are
falsy, any other string is truthy).  Used for `text || ''`,
`model || DEFAULT_MODEL`, `voice || DEFAULT_VOICE`. -/
def jsOrStr (v : Option String) (d : String) : String :=
  match v with
  | none => d
  | some s => if s = "" then d else s

/-- Response of the `/tts` handler, by shape. -/
inductive TtsResp where
  /-- `res.status(400).json({ error: msg })`. -/
  | badRequest (msg : String)
  /-- the raw `audio/wav` byte response. -/
  | okWav (wav : Bytes)
  /-- the `return: "base64"` JSON envelope. -/
  | okBase64 (wav : Bytes) (model voice : String)
  /-- `res.status(500).json({ error: msg, detail })`. -/
  | serverError (msg detail : String)
  deriving DecidableEq, Repr

/-- Embedding of the `POST /tts` handler (src/index.js lines 128-156):
`t = (text || '').toString()`; reject with 400 when `t.trim()` is empty;
otherwise synthesize a WAV with `t` (NOT trimmed) and the defaulted
voice/model, and shape the response.  `defaultModel`/`defaultVoice` are the
env-derived `DEFAULT_MODEL`/`DEFAULT_VOICE`.  Returns the response, the WAV
cache after the call, and whether the backend was invoked. -/
def ttsHandler (backend : Backend) (defaultModel defaultVoice : String)
    (text voice model ret : Option String) (now : Int) (cache : Cache) :
    TtsResp × Cache × Bool :=
  let t := jsOrStr text ""
  if jsTrim t = "" then
    (.badRequest "Missing required \"text\" string.", cache, false)
  else
    let useModel := jsOrStr model defaultModel
    let useVoice := jsOrStr voice defaultVoice
    match synthesizeToWav backend t useVoice useModel now cache with
    | (.ok wavBuf, c, b) =>
        if ret = some "base64" then (.okBase64 wavBuf useModel useVoice, c, b)
        else (.okWav wavBuf, c, b)
    | (.error e, c, b) => (.serverError "TTS failed" e, c, b)

/-- The cache fingerprint under which a `/tts` request's synthesis is cached:
the handler passes `t = (text || '').toString()` straight to
`synthesizeToWav`, which keys the WAV cache with
`wav::` + `makeKey({text: t, voice, model})`. -/
def ttsRequestKey (defaultModel defaultVoice : String)
    (text voice model : Option String) : String :=
  wavKey (jsOrStr text "") (jsOrStr voice defaultVoice)
    (jsOrStr model defaultModel)

/-- One element of the `items` array of a `POST /batch-url` body. -/
structure BatchItem where
  text : Option String
  voice : Option String
  model : Option String
  deriving DecidableEq, Repr

/-- One element of the `results` array: either the single-item success shape
`{ text, url, model, voice, sampleRate: 24000, channels: 1 }` or the
error-only shape `{ error: message }`. -/
inductive BatchResult where
  | ok (text url model voice : String)
  | err (message : String)
  deriving DecidableEq, Repr

/-- Processing of one batch item (the async closure in src/index.js lines
188-204): validate the text, synthesize the WAV, persist it under a fresh
`uuid` and build its public URL; a thrown error becomes
`{ error: e.message || 'synthesis failed' }`.  `origin` is
`getPublicOrigin(req)`, `uuid` the value of `crypto.randomUUID()` for this
item. -/
def processBatchItem (backend : Backend) (defaultModel defaultVoice : String)
    (origin uuid : String) (now : Int) (cache : Cache) (item : BatchItem) :
    BatchResult × Cache :=
  let t := jsOrStr item.text ""
  if jsTrim t = "" then (.err "Missing text", cache)
  else
    let useModel := jsOrStr item.model defaultModel
    let useVoice := jsOrStr item.voice defaultVoice
    match synthesizeToWav backend t useVoice useModel now cache with
    | (.ok _, c, _) =>
        (.ok t (origin ++ "/audio/" ++ uuid ++ ".wav") useModel useVoice, c)
    | (.error e, c, _) => (.err e, c)

/-- The item loop of `/batch-url`, with the shared WAV cache threaded
through the items in input order (the race-free sequential schedule of the
`Promise.all` fan-out); `uuids i` is the random UUID drawn for item `i`. -/
def batchGo (backend : Backend) (defaultModel defaultVoice : String)
    (origin : String) (uuids : Nat → String) (now : Int) :
    Nat → Cache → List BatchItem → List BatchResult × Cache
  | _, cache, [] => ([], cache)
  | i, cache, item :: rest =>
      let (r, c1) := processBatchItem backend defaultModel defaultVoice
        origin (uuids i) now cache item
      let (rs, c2) := batchGo backend defaultModel defaultVoice origin uuids
        now (i + 1) c1 rest
      (r :: rs, c2)

/-- Response of the `/batch-url` handler. -/
inductive BatchResp where
  /-- 400 `{ error: 'Provide items: ...' }` for a missing/empty/non-array
  `items`. -/
  | badRequest
  /-- `{ results: [...] }`. -/
  | results (rs : List BatchResult)
  deriving DecidableEq, Repr

/-- Embedding of the `POST /batch-url` handler (src/index.js lines 182-210):
400 unless `items` is a non-empty array, else map every item to its result,
preserving input order. -/
def batchHandler (backend : Backend) (defaultModel defaultVoice : String)
    (origin : String) (uuids : Nat → String) (now : Int)
    (items : Option (List BatchItem)) (cache : Cache) : BatchResp × Cache :=
  match items with
  | none => (.badRequest, cache)
  | some l =>
      if l = [] then (.badRequest, cache)
      else
        let (rs, c) := batchGo backend defaultModel defaultVoice origin uuids
          now 0 cache l
        (.results rs, c)

/-- A JSON value in the `message.sampleRate` position: absent, a number, or
a string. -/
inductive SRVal where
  | undef
  | num (n : Int)
  | str (s : String)
  deriving DecidableEq, Repr

/-- JS truthiness of such a value (`undefined` and `0` and `""` are
falsy). -/
def srTruthy : SRVal → Bool
  | .undef => false
  | .num n => n != 0
  | .str s => s != ""

/-- JS `v || d`. -/
def jsOrSR (v d : SRVal) : SRVal :=
  if srTruthy v then v else d

/-- The decimal fragment of JS `Number()` string coercion that this server
can meet: surrounding whitespace is ignored, an empty remainder is `0`, a
pure digit run is its decimal value, anything else is NaN (`none`). -/
def jsStrToNumber (s : String) : Option Int :=
  let t := jsTrimList s.data
  if t = [] then some 0
  else if t.all Char.isDigit then
    some (Int.ofNat (t.foldl (fun n c => n * 10 + (c.toNat - 48)) 0))
  else none

/-- JS `Number(v)`; `none` is NaN. -/
def jsToNumber : SRVal → Option Int
  | .undef => none
  | .num n => some n
  | .str s => jsStrToNumber s

/-- The `message` object of a `POST /vapi-tts` body. -/
structure VapiMessage where
  type : Option String
  text : Option String
  sampleRate : SRVal
  deriving DecidableEq, Repr

/-- Response of the `/vapi-tts` handler, by shape. -/
inductive VapiResp where
  /-- 401 `{ error: 'Unauthorized' }`. -/
  | unauthorized
  /-- 400 `{ error: ... }` with the given message. -/
  | badRequest (msg : String)
  /-- the raw `application/octet-stream` PCM response. -/
  | okPcm (pcm : Bytes)
  /-- 500 `{ error: 'TTS failed', detail }`. -/
  | serverError (detail : String)
  deriving DecidableEq, Repr

/-- The auth gate of `/vapi-tts` (src/index.js lines 215-220):
`expected && token !== expected` — the check only fires when
`VAPI_TTS_SECRET` is set to a truthy (non-empty) string and the
`x-vapi-signature` header differs from it (an absent header differs from
every configured secret). -/
def vapiAuthFails (secretEnv header : Option String) : Bool :=
  match secretEnv with
  | none => false
  | some s => s != "" && header != some s

/-- The final synthesis step of `/vapi-tts` (src/index.js lines 234-242):
always the server-default model/voice, raw PCM out. -/
def vapiSynthStep (backend : Backend) (defaultModel defaultVoice : String)
    (text : String) (now : Int) (cache : Cache) : VapiResp × Cache × Bool :=
  match synthesizeToPcm backend text defaultVoice defaultModel now cache with
  | (.ok pcm, c, b) => (.okPcm pcm, c, b)
  | (.error e, c, b) => (.serverError e, c, b)

/-- The `/vapi-tts` handler after the auth gate (src/index.js lines
222-242): require `message.type === 'voice-request'`, then
`text = (message.text || '').toString()` and
`sampleRate = Number(message.sampleRate || 24000)`; 400 on blank text or
`sampleRate !== 24000`; otherwise synthesize raw PCM. -/
def vapiAfterAuth (backend : Backend) (defaultModel defaultVoice : String)
    (message : Option VapiMessage) (now : Int) (cache : Cache) :
    VapiResp × Cache × Bool :=
  match message with
  | none =>
      (.badRequest "Invalid payload: expected message.type=\"voice-request\"",
        cache, false)
  | some msg =>
      if msg.type ≠ some "voice-request" then
        (.badRequest "Invalid payload: expected message.type=\"voice-request\"",
          cache, false)
      else
        let text := jsOrStr msg.text ""
        let sampleRate := jsToNumber (jsOrSR msg.sampleRate (.num 24000))
        if jsTrim text = "" then (.badRequest "Missing text", cache, false)
        else if sampleRate ≠ some 24000 then
          (.badRequest "Only 24000 Hz supported by this TTS server", cache,
            false)
        else vapiSynthStep backend defaultModel defaultVoice text now cache

/-- Embedding of the `POST /vapi-tts` handler (src/index.js lines 213-247).
`secretEnv` is `process.env.VAPI_TTS_SECRET`, `header` the
`x-vapi-signature` request header, `cache` the PCM cache. -/
def vapiHandler (backend : Backend) (defaultModel defaultVoice : String)
    (secretEnv header : Option String) (message : Option VapiMessage)
    (now : Int) (cache : Cache) : VapiResp × Cache × Bool :=
  if vapiAuthFails secretEnv header then (.unauthorized, cache, false)
  else vapiAfterAuth backend defaultModel defaultVoice message now cache

/-- A stub backend returning the base64-decode of four zero bytes as PCM
for every request (the spec's example scenario). -/
def stubBackend : Backend := fun _ _ _ => some [0, 0, 0, 0]

/-- The WAV the stub backend's PCM wraps to. -/
def stubWav : Bytes := pcm16ToWav [0, 0, 0, 0] 24000 1 16

/-- The WAV cache after one miss-path call for `("Hello","Kore","m1")`
against the stub backend at time 0. -/
def stubWavCache : Cache := [(wavKey "Hello" "Kore" "m1", ⟨stubWav, 0⟩)]

/-- A PCM cache holding the stub PCM for `("Hello","Kore","m1")` at time
0. -/
def stubPcmCache : Cache := [(pcmKey "Hello" "Kore" "m1", ⟨[0, 0, 0, 0], 0⟩)]

/-- A backend failing exactly on text `"B"` (for the batch-independence
scenario). -/
def failOnB : Backend := fun t _ _ => if t = "B" then none else some [0, 0, 0, 0]

/-- A three-item batch whose middle item triggers the upstream error of
`failOnB`. -/
def items3 : List BatchItem :=
  [⟨some "A", none, none⟩, ⟨some "B", none, none⟩, ⟨some "C", none, none⟩]

/-- A uuid supply for batch witnesses. -/
def uuidsStub : Nat → String := fun i => "uuid" ++ toString i

/-- C1: the canonical 44-byte header for the fixed profile, spelled out:
"RIFF", chunk size, "WAVE", "fmt ", 16, PCM tag 1, 1 channel, 24000 Hz,
byte rate 48000, block align 2, 16 bits, "data", data length. -/
theorem pcm16ToWav_header_spec (pcm : Bytes) :
    pcm16ToWav pcm 24000 1 16 =
      ([82, 73, 70, 70] ++ u32le (36 + pcm.length) ++
       [87, 65, 86, 69, 102, 109, 116, 32,
        16, 0, 0, 0, 1, 0, 1, 0,
        192, 93, 0, 0, 128, 187, 0, 0,
        2, 0, 16, 0, 100, 97, 116, 97] ++
       u32le pcm.length ++ pcm : List Nat) ∧
    (pcm16ToWav pcm 24000 1 16).length = 44 + pcm.length := by
  constructor
  · rfl
  · simp [pcm16ToWav, u32le, u16le, asciiBytes]
    omega

/-- Both branches of the WAV miss path report a backend invocation. -/
theorem synthesizeToWavMiss_called (backend : Backend) (t v m : String)
    (now : Int) (c : Cache) :
    (synthesizeToWavMiss backend t v m now c).2.2 = true := by
  unfold synthesizeToWavMiss
  cases backend t v m <;> rfl

/-- Both branches of the PCM miss path report a backend invocation. -/
theorem synthesizeToPcmMiss_called (backend : Backend) (t v m : String)
    (now : Int) (c : Cache) :
    (synthesizeToPcmMiss backend t v m now c).2.2 = true := by
  unfold synthesizeToPcmMiss
  cases backend t v m <;> rfl

/-- A successful `synthesizeToWav` call leaves a cache entry under the wav
key whose payload is exactly the returned bytes. -/
theorem synthesizeToWav_ok_lookup (backend : Backend) (t v m : String)
    (now : Int) (c c₂ : Cache) (bytes : Bytes) (flag : Bool)
    (h : synthesizeToWav backend t v m now c = (.ok bytes, c₂, flag)) :
    ∃ ca, cacheGet (wavKey t v m) c₂ = some ⟨bytes, ca⟩ := by
  cases hg : cacheGet (wavKey t v m) c with
  | some hit =>
      simp only [synthesizeToWav, hg] at h
      by_cases hfresh : now - hit.createdAt < CACHE_TTL_MS
      · rw [if_pos hfresh] at h
        simp only [Prod.mk.injEq, Except.ok.injEq] at h
        obtain ⟨h1, h2, -⟩ := h
        exact ⟨hit.createdAt, by rw [← h2, hg, ← h1]⟩
      · rw [if_neg hfresh] at h
        cases hb : backend t v m with
        | none =>
            simp [synthesizeToWavMiss, hb] at h
        | some pcm =>
            simp only [synthesizeToWavMiss, hb, Prod.mk.injEq,
              Except.ok.injEq] at h
            obtain ⟨h1, h2, -⟩ := h
            exact ⟨now, by rw [← h2]; simp [cacheGet, ← h1]⟩
  | none =>
      simp only [synthesizeToWav, hg] at h
      cases hb : backend t v m with
      | none =>
          simp [synthesizeToWavMiss, hb] at h
      | some pcm =>
          simp only [synthesizeToWavMiss, hb, Prod.mk.injEq,
            Except.ok.injEq] at h
          obtain ⟨h1, h2, -⟩ := h
          exact ⟨now, by rw [← h2]; simp [cacheGet, ← h1]⟩

/-- C2: after a completed successful `synthesizeToWav` call, a second call
with the same `(text, voice, model)` made while the resulting cache entry is
still within the 10-minute TTL returns exactly the first call's bytes, does
not invoke the backend, and leaves the cache unchanged; across the two calls
the backend runs at most once. -/
theorem synthWav_second_call_cached (backend : Backend) (t v m : String)
    (now₁ now₂ : Int) (c₀ c₁ : Cache) (bytes : Bytes) (flag₁ : Bool)
    (e : CacheEntry)
    (h₁ : synthesizeToWav backend t v m now₁ c₀ = (.ok bytes, c₁, flag₁))
    (he : cacheGet (wavKey t v m) c₁ = some e)
    (hfresh : now₂ - e.createdAt < CACHE_TTL_MS) :
    synthesizeToWav backend t v m now₂ c₁ = (.ok bytes, c₁, false) ∧
    (if flag₁ = true then 1 else 0) +
      (if (synthesizeToWav backend t v m now₂ c₁).2.2 = true then 1 else 0)
      ≤ 1 := by
  obtain ⟨ca, hca⟩ := synthesizeToWav_ok_lookup backend t v m now₁ c₀ c₁
    bytes flag₁ h₁
  have hee : e = ⟨bytes, ca⟩ := by
    have := hca ▸ he
    exact Option.some.inj this.symm
  have hfr : now₂ - ca < CACHE_TTL_MS := by rw [hee] at hfresh; exact hfresh
  have hmain : synthesizeToWav backend t v m now₂ c₁ =
      (.ok bytes, c₁, false) := by
    simp only [synthesizeToWav, he, hee, if_pos hfr]
  refine ⟨hmain, ?_⟩
  rw [hmain]
  cases flag₁ <;> simp

/-- Witness for C2: the spec's example request against the stub backend; the
first call at time 0 populates the cache, the second at time 5 ms is served
from it. -/
theorem synthWav_second_call_cached_witness :
    synthesizeToWav stubBackend "Hello" "Kore" "m1" 5 stubWavCache =
      (.ok stubWav, stubWavCache, false) ∧
    (if (true : Bool) = true then 1 else 0) +
      (if (synthesizeToWav stubBackend "Hello" "Kore" "m1" 5
        stubWavCache).2.2 = true then 1 else 0) ≤ 1 :=
  synthWav_second_call_cached stubBackend "Hello" "Kore" "m1" 0 5 []
    stubWavCache stubWav true ⟨stubWav, 0⟩ (by rfl) (by rfl) (by decide)

/-- C4: an entry read when `now - createdAt` has reached the TTL is treated
exactly like an absent entry: the call runs the miss path (hence a fresh
backend call is made, never the stale payload). -/
theorem synthWav_expired_entry_miss (backend : Backend) (t v m : String)
    (now : Int) (c : Cache) (e : CacheEntry)
    (hl : cacheGet (wavKey t v m) c = some e)
    (hexp : CACHE_TTL_MS ≤ now - e.createdAt) :
    synthesizeToWav backend t v m now c =
      synthesizeToWavMiss backend t v m now c ∧
    (synthesizeToWav backend t v m now c).2.2 = true := by
  have hmain : synthesizeToWav backend t v m now c =
      synthesizeToWavMiss backend t v m now c := by
    simp only [synthesizeToWav, hl, if_neg (show ¬now - e.createdAt <
      CACHE_TTL_MS by omega)]
  exact ⟨hmain, hmain ▸ synthesizeToWavMiss_called backend t v m now c⟩

/-- Witness for C4: the entry stamped at time 0 read at exactly
`CACHE_TTL_MS` is a miss and triggers a backend call. -/
theorem synthWav_expired_entry_miss_witness :
    synthesizeToWav stubBackend "Hello" "Kore" "m1" 600000 stubWavCache =
      synthesizeToWavMiss stubBackend "Hello" "Kore" "m1" 600000
        stubWavCache ∧
    (synthesizeToWav stubBackend "Hello" "Kore" "m1" 600000
      stubWavCache).2.2 = true :=
  synthWav_expired_entry_miss stubBackend "Hello" "Kore" "m1" 600000
    stubWavCache ⟨stubWav, 0⟩ (by rfl) (by decide)

/-- A `synthesizeToWav` call that did not invoke the backend was a cache
hit: its result is the payload of the existing entry under the wav key. -/
theorem synthesizeToWav_no_call_is_hit (backend : Backend) (t v m : String)
    (now : Int) (c : Cache)
    (h : (synthesizeToWav backend t v m now c).2.2 = false) :
    ∃ e, cacheGet (wavKey t v m) c = some e ∧
      (synthesizeToWav backend t v m now c).1 = .ok e.payload := by
  cases hg : cacheGet (wavKey t v m) c with
  | some hit =>
      by_cases hfresh : now - hit.createdAt < CACHE_TTL_MS
      · refine ⟨hit, rfl, ?_⟩
        simp only [synthesizeToWav, hg, if_pos hfresh]
      · rw [show (synthesizeToWav backend t v m now c).2.2 = true from by
          simp only [synthesizeToWav, hg, if_neg hfresh,
            synthesizeToWavMiss_called]] at h
        exact absurd h (by decide)
  | none =>
      rw [show (synthesizeToWav backend t v m now c).2.2 = true from by
        simp only [synthesizeToWav, hg, synthesizeToWavMiss_called]] at h
      exact absurd h (by decide)

/-- A `synthesizeToPcm` call that did not invoke the backend was a cache
hit: its result is the payload of the existing entry under the pcm key. -/
theorem synthesizeToPcm_no_call_is_hit (backend : Backend) (t v m : String)
    (now : Int) (c : Cache)
    (h : (synthesizeToPcm backend t v m now c).2.2 = false) :
    ∃ e, cacheGet (pcmKey t v m) c = some e ∧
      (synthesizeToPcm backend t v m now c).1 = .ok e.payload := by
  cases hg : cacheGet (pcmKey t v m) c with
  | some hit =>
      by_cases hfresh : now - hit.createdAt < CACHE_TTL_MS
      · refine ⟨hit, rfl, ?_⟩
        simp only [synthesizeToPcm, hg, if_pos hfresh]
      · rw [show (synthesizeToPcm backend t v m now c).2.2 = true from by
          simp only [synthesizeToPcm, hg, if_neg hfresh,
            synthesizeToPcmMiss_called]] at h
        exact absurd h (by decide)
  | none =>
      rw [show (synthesizeToPcm backend t v m now c).2.2 = true from by
        simp only [synthesizeToPcm, hg, synthesizeToPcmMiss_called]] at h
      exact absurd h (by decide)

/-- C5: kind isolation.  Wav keys and pcm keys are disjoint (a `wav::`
prefix never equals a `pcm::` prefix), so with the two separate caches the
WAV path can only ever serve a buffer cached under a `wav::`-prefixed key of
its own cache and the PCM path only one cached under a `pcm::`-prefixed key
of its cache. -/
theorem kind_isolation (backend : Backend) (t v m t₂ v₂ m₂ : String)
    (now : Int) (cw cp : Cache)
    (hw : (synthesizeToWav backend t v m now cw).2.2 = false)
    (hp : (synthesizeToPcm backend t₂ v₂ m₂ now cp).2.2 = false) :
    wavKey t v m ≠ pcmKey t₂ v₂ m₂ ∧
    (∃ r, wavKey t v m = "wav::" ++ r) ∧
    (∃ r, pcmKey t₂ v₂ m₂ = "pcm::" ++ r) ∧
    (∃ e, cacheGet (wavKey t v m) cw = some e ∧
      (synthesizeToWav backend t v m now cw).1 = .ok e.payload) ∧
    (∃ e, cacheGet (pcmKey t₂ v₂ m₂) cp = some e ∧
      (synthesizeToPcm backend t₂ v₂ m₂ now cp).1 = .ok e.payload) := by
  refine ⟨?_, ⟨makeKey t v m, rfl⟩, ⟨makeKey t₂ v₂ m₂, rfl⟩,
    synthesizeToWav_no_call_is_hit backend t v m now cw hw,
    synthesizeToPcm_no_call_is_hit backend t₂ v₂ m₂ now cp hp⟩
  intro h
  have hd := congrArg String.data h
  simp only [wavKey, pcmKey, String.data_append] at hd
  simp [show ("wav::").data = ['w', 'a', 'v', ':', ':'] from rfl,
    show ("pcm::").data = ['p', 'c', 'm', ':', ':'] from rfl] at hd

/-- Witness for C5: wav-cached and pcm-cached lookups for the example
request stay within their own caches and key spaces. -/
theorem kind_isolation_witness :
    wavKey "Hello" "Kore" "m1" ≠ pcmKey "Hello" "Kore" "m1" ∧
    (∃ r, wavKey "Hello" "Kore" "m1" = "wav::" ++ r) ∧
    (∃ r, pcmKey "Hello" "Kore" "m1" = "pcm::" ++ r) ∧
    (∃ e, cacheGet (wavKey "Hello" "Kore" "m1") stubWavCache = some e ∧
      (synthesizeToWav stubBackend "Hello" "Kore" "m1" 5 stubWavCache).1 =
        .ok e.payload) ∧
    (∃ e, cacheGet (pcmKey "Hello" "Kore" "m1") stubPcmCache = some e ∧
      (synthesizeToPcm stubBackend "Hello" "Kore" "m1" 5 stubPcmCache).1 =
        .ok e.payload) :=
  kind_isolation stubBackend "Hello" "Kore" "m1" "Hello" "Kore" "m1" 5
    stubWavCache stubPcmCache (by rfl) (by rfl)

/-- C6: every insertion `audioCache.set(key, { wavBuf, createdAt: now })`
stamps the entry with the call's `Date.now()` sample `now` — whenever a call
changes the cache, the change is exactly one new entry under the wav key
with `createdAt = now`; and an entry stamped `T` is served as a hit (no
backend call) at a read time `now₂` exactly when `now₂ - T < CACHE_TTL_MS`. -/
theorem cache_set_stamps_now (backend : Backend) (t v m : String)
    (now : Int) (c : Cache) :
    ((synthesizeToWav backend t v m now c).2.1 ≠ c →
      ∃ wavBuf, (synthesizeToWav backend t v m now c).2.1 =
        (wavKey t v m, ⟨wavBuf, now⟩) :: c) ∧
    (∀ e (now₂ : Int), cacheGet (wavKey t v m) c = some e →
      ((synthesizeToWav backend t v m now₂ c).2.2 = false ↔
        now₂ - e.createdAt < CACHE_TTL_MS)) := by
  constructor
  · intro hne
    cases hg : cacheGet (wavKey t v m) c with
    | some hit =>
        by_cases hfresh : now - hit.createdAt < CACHE_TTL_MS
        · exact absurd (by simp only [synthesizeToWav, hg, if_pos hfresh])
            hne
        · simp only [synthesizeToWav, hg, if_neg hfresh] at hne ⊢
          cases hb : backend t v m with
          | none => simp [synthesizeToWavMiss, hb] at hne
          | some pcm =>
              exact ⟨pcm16ToWav pcm 24000 1 16,
                by simp only [synthesizeToWavMiss, hb]⟩
    | none =>
        simp only [synthesizeToWav, hg] at hne ⊢
        cases hb : backend t v m with
        | none => simp [synthesizeToWavMiss, hb] at hne
        | some pcm =>
            exact ⟨pcm16ToWav pcm 24000 1 16,
              by simp only [synthesizeToWavMiss, hb]⟩
  · intro e now₂ hg
    constructor
    · intro hflag
      by_contra hstale
      rw [show (synthesizeToWav backend t v m now₂ c).2.2 = true from by
        simp only [synthesizeToWav, hg, if_neg hstale,
          synthesizeToWavMiss_called]] at hflag
      exact absurd hflag (by decide)
    · intro hfresh
      simp only [synthesizeToWav, hg, if_pos hfresh]

/-- Witness for C6: the miss-path call at time 0 inserts the entry stamped
`createdAt = 0`, and that entry is a hit at read time 5. -/
theorem cache_set_stamps_now_witness :
    (∃ wavBuf, (synthesizeToWav stubBackend "Hello" "Kore" "m1" 0 []).2.1 =
      (wavKey "Hello" "Kore" "m1", ⟨wavBuf, 0⟩) :: []) ∧
    ((synthesizeToWav stubBackend "Hello" "Kore" "m1" 5
      stubWavCache).2.2 = false ↔ (5 : Int) - (0 : Int) < CACHE_TTL_MS) :=
  ⟨(cache_set_stamps_now stubBackend "Hello" "Kore" "m1" 0 []).1
      (by decide),
    (cache_set_stamps_now stubBackend "Hello" "Kore" "m1" 5
      stubWavCache).2 ⟨stubWav, 0⟩ 5 (by rfl)⟩

/-- The value `(text || '').toString()` for a present text is the text itself. -/
theorem jsOrStr_some_empty (t : String) : jsOrStr (some t) "" = t := by
  by_cases h : t = ""
  · simp [jsOrStr, h]
  · simp [jsOrStr, h]

/-- Counterexample for C3: the `/tts` handler keys the cache with the raw
(untrimmed) text, so `"Hello"` and `" Hello "` get different fingerprints,
and after a first call for `"Hello"` a request for `" Hello "` still
invokes the backend instead of hitting the first call's entry. -/
theorem trim_before_keying_cex :
    ttsRequestKey "m1" "Kore" (some "Hello") none none ≠
      ttsRequestKey "m1" "Kore" (some " Hello ") none none ∧
    (ttsHandler stubBackend "m1" "Kore" (some " Hello ") none none none 0
      stubWavCache).2.2 = true := by
  constructor
  · decide
  · rfl

/-- C3 (amended): for fixed default config, voice and model, two `/tts`
requests share a cache fingerprint exactly when their raw `text` values
are byte-identical — validation trims only for the emptiness check, never
before keying. -/
theorem tts_fingerprint_exact_text (dm dv : String)
    (text₁ text₂ voice model : Option String) :
    ttsRequestKey dm dv text₁ voice model =
      ttsRequestKey dm dv text₂ voice model ↔
    jsOrStr text₁ "" = jsOrStr text₂ "" := by
  unfold ttsRequestKey wavKey makeKey
  constructor
  · intro h
    have hd := congrArg String.data h
    simp only [String.data_append] at hd
    have h1 := List.append_cancel_left hd
    have h2 := List.append_cancel_left h1
    exact String.ext h2
  · intro h
    rw [h]

/-- Witness for the amended C3: identical raw texts share the fingerprint;
via the equivalence this transfers both ways. -/
theorem tts_fingerprint_exact_text_witness :
    ttsRequestKey "m1" "Kore" (some "Hello") none none =
      ttsRequestKey "m1" "Kore" (some "Hello") none none ↔
    jsOrStr (some "Hello") "" = jsOrStr (some "Hello") "" :=
  tts_fingerprint_exact_text "m1" "Kore" (some "Hello") (some "Hello")
    none none

/-- C7: a `/tts` request whose `text` is absent, empty, or whitespace-only
is rejected with the 400 `Missing required "text" string.` response, the
cache is untouched, and the backend is never invoked. -/
theorem tts_blank_text_400 (backend : Backend) (dm dv : String)
    (text voice model ret : Option String) (now : Int) (c : Cache)
    (h : text = none ∨ ∃ s, text = some s ∧ jsTrim s = "") :
    ttsHandler backend dm dv text voice model ret now c =
      (.badRequest "Missing required \"text\" string.", c, false) := by
  have ht : jsTrim (jsOrStr text "") = "" := by
    rcases h with rfl | ⟨s, rfl, hs⟩
    · decide
    · by_cases hs0 : s = ""
      · rw [show jsOrStr (some s) "" = "" from by simp [jsOrStr, hs0]]
        decide
      · rw [jsOrStr_some_empty]
        exact hs
  simp only [ttsHandler, if_pos ht]

/-- Witness for C7: a whitespace-only text (spaces and a tab) is rejected
without a backend call. -/
theorem tts_blank_text_400_witness :
    ttsHandler stubBackend "m1" "Kore" (some "  \t ") none none none 0 [] =
      (.badRequest "Missing required \"text\" string.", [], false) :=
  tts_blank_text_400 stubBackend "m1" "Kore" (some "  \t ") none none none
    0 [] (Or.inr ⟨"  \t ", rfl, by decide⟩)

/-- A failed `synthesizeToWav` call leaves the cache unchanged (only the
success path stores an entry). -/
theorem synthesizeToWav_error_cache (backend : Backend) (t v m : String)
    (now : Int) (c : Cache) (e : String)
    (h : (synthesizeToWav backend t v m now c).1 = .error e) :
    (synthesizeToWav backend t v m now c).2.1 = c := by
  cases hg : cacheGet (wavKey t v m) c with
  | some hit =>
      by_cases hfresh : now - hit.createdAt < CACHE_TTL_MS
      · simp only [synthesizeToWav, hg, if_pos hfresh]
      · simp only [synthesizeToWav, hg, if_neg hfresh] at h ⊢
        cases hb : backend t v m with
        | none => simp only [synthesizeToWavMiss, hb]
        | some pcm => simp [synthesizeToWavMiss, hb] at h
  | none =>
      simp only [synthesizeToWav, hg] at h ⊢
      cases hb : backend t v m with
      | none => simp only [synthesizeToWavMiss, hb]
      | some pcm => simp [synthesizeToWavMiss, hb] at h

/-- A batch item whose result is `{error: ...}` leaves the shared cache
unchanged. -/
theorem processBatchItem_err_cache (backend : Backend)
    (dm dv origin uuid : String) (now : Int) (c : Cache) (item : BatchItem)
    (e : String)
    (h : (processBatchItem backend dm dv origin uuid now c item).1 =
      .err e) :
    (processBatchItem backend dm dv origin uuid now c item).2 = c := by
  by_cases hv : jsTrim (jsOrStr item.text "") = ""
  · simp only [processBatchItem, if_pos hv]
  · cases hsw : synthesizeToWav backend (jsOrStr item.text "")
      (jsOrStr item.voice dv) (jsOrStr item.model dm) now c with
    | mk r rest =>
        obtain ⟨c₁, b⟩ := rest
        cases r with
        | ok w =>
            simp only [processBatchItem, if_neg hv, hsw] at h
            exact absurd h (by simp)
        | error msg =>
            simp only [processBatchItem, if_neg hv, hsw]
            have hc := synthesizeToWav_error_cache backend _ _ _ now c msg
              (by rw [hsw])
            rw [hsw] at hc
            exact hc

/-- The `/batch-url` item loop maps a concatenation to the concatenation of
the two loops, threading the cache and the uuid index. -/
theorem batchGo_append (backend : Backend) (dm dv origin : String)
    (uuids : Nat → String) (now : Int) (xs ys : List BatchItem) :
    ∀ (i : Nat) (c : Cache),
    batchGo backend dm dv origin uuids now i c (xs ++ ys) =
      ((batchGo backend dm dv origin uuids now i c xs).1 ++
        (batchGo backend dm dv origin uuids now (i + xs.length)
          (batchGo backend dm dv origin uuids now i c xs).2 ys).1,
       (batchGo backend dm dv origin uuids now (i + xs.length)
          (batchGo backend dm dv origin uuids now i c xs).2 ys).2) := by
  induction xs with
  | nil => intro i c; simp [batchGo]
  | cons x xs ih =>
      intro i c
      cases hp : processBatchItem backend dm dv origin (uuids i) now c x with
      | mk r c₁ =>
          simp only [List.cons_append, batchGo, hp, List.length_cons]
          rw [show i + (xs.length + 1) = i + 1 + xs.length by omega]
          have ih2 := ih (i + 1) c₁
          rw [show (xs ++ ys) = xs.append ys from rfl] at ih2
          rw [ih2]

/-- The item loop yields exactly one result per item. -/
theorem batchGo_length (backend : Backend) (dm dv origin : String)
    (uuids : Nat → String) (now : Int) (l : List BatchItem) :
    ∀ (i : Nat) (c : Cache),
    (batchGo backend dm dv origin uuids now i c l).1.length = l.length := by
  induction l with
  | nil => intro i c; rfl
  | cons x xs ih =>
      intro i c
      cases hp : processBatchItem backend dm dv origin (uuids i) now c x with
      | mk r c₁ => simp [batchGo, hp, ih]

/-- C8: a `/batch-url` request with a non-empty `items` list responds with
`{results}` holding exactly one result per input item in input order, each
result being either the single-item success shape or an error-only object;
and around any failing item the result list decomposes as
(results of the preceding items) ++ `{error}` ++ (results of the following
items computed from the same cache state the failing item saw) — a failure
neither aborts the batch nor perturbs any sibling item's result. -/
theorem batch_results_shape (backend : Backend) (dm dv origin : String)
    (uuids : Nat → String) (now : Int) (c : Cache)
    (items : List BatchItem) (h : items ≠ []) :
    ∃ rs c₂,
      batchHandler backend dm dv origin uuids now (some items) c =
        (.results rs, c₂) ∧
      rs.length = items.length ∧
      (∀ r ∈ rs, (∃ t u mm vv, r = .ok t u mm vv) ∨ ∃ e, r = .err e) ∧
      (∀ xs bad ys e₁,
        items = xs ++ bad :: ys →
        (processBatchItem backend dm dv origin (uuids xs.length) now
          (batchGo backend dm dv origin uuids now 0 c xs).2 bad).1 =
            .err e₁ →
        rs = (batchGo backend dm dv origin uuids now 0 c xs).1 ++
          .err e₁ :: (batchGo backend dm dv origin uuids now
            (xs.length + 1)
            (batchGo backend dm dv origin uuids now 0 c xs).2 ys).1) := by
  refine ⟨(batchGo backend dm dv origin uuids now 0 c items).1,
    (batchGo backend dm dv origin uuids now 0 c items).2, ?_, ?_, ?_, ?_⟩
  · simp only [batchHandler, if_neg h]
  · exact batchGo_length backend dm dv origin uuids now items 0 c
  · intro r _
    cases r with
    | ok t u mm vv => exact Or.inl ⟨t, u, mm, vv, rfl⟩
    | err e => exact Or.inr ⟨e, rfl⟩
  · intro xs bad ys e₁ hitems herr
    subst hitems
    rw [batchGo_append backend dm dv origin uuids now xs (bad :: ys) 0 c]
    have hcache := processBatchItem_err_cache backend dm dv origin
      (uuids xs.length) now
      (batchGo backend dm dv origin uuids now 0 c xs).2 bad e₁ herr
    cases hp : processBatchItem backend dm dv origin (uuids xs.length) now
      (batchGo backend dm dv origin uuids now 0 c xs).2 bad with
    | mk r c₁ =>
        rw [hp] at herr hcache
        simp only at herr hcache
        subst herr
        subst hcache
        simp only [batchGo, hp, Nat.zero_add]

/-- Witness for C8: three items where the middle one hits the failing
backend; the handler still answers with three results. -/
theorem batch_results_shape_witness :
    ∃ rs c₂,
      batchHandler failOnB "m1" "Kore" "http://h" uuidsStub 0
        (some items3) [] = (.results rs, c₂) ∧ rs.length = 3 := by
  obtain ⟨rs, c₂, h1, h2, -, -⟩ := batch_results_shape failOnB "m1" "Kore"
    "http://h" uuidsStub 0 [] items3 (by decide)
  exact ⟨rs, c₂, h1, h2.trans rfl⟩

/-- C9: with a (non-empty) webhook secret configured, any `/vapi-tts`
request whose `x-vapi-signature` header differs from it — including an
absent header — is answered `401 Unauthorized` with no cache access and no
backend call, whatever the payload; with no secret configured the auth gate
is inert: the handler is exactly its post-auth processing for every header
value. -/
theorem vapi_auth (backend : Backend) (dm dv : String) (s : String)
    (header : Option String) (message : Option VapiMessage) (now : Int)
    (c : Cache) (hs : s ≠ "") (hh : header ≠ some s) :
    vapiHandler backend dm dv (some s) header message now c =
      (.unauthorized, c, false) ∧
    ∀ (header₂ : Option String) (message₂ : Option VapiMessage)
      (now₂ : Int) (c₂ : Cache),
      vapiHandler backend dm dv none header₂ message₂ now₂ c₂ =
        vapiAfterAuth backend dm dv message₂ now₂ c₂ := by
  constructor
  · have hfail : vapiAuthFails (some s) header = true := by
      simp [vapiAuthFails, bne_iff_ne, hs, hh]
    simp [vapiHandler, hfail]
  · intro header₂ message₂ now₂ c₂
    simp [vapiHandler, vapiAuthFails]

/-- Witness for C9: configured secret `"abc"`, request header `"xyz"`. -/
theorem vapi_auth_witness :
    vapiHandler stubBackend "m1" "Kore" (some "abc") (some "xyz") none 0 [] =
      (.unauthorized, [], false) :=
  (vapi_auth stubBackend "m1" "Kore" "abc" (some "xyz") none 0 []
    (by decide) (by decide)).1

/-- C10: a `/vapi-tts` voice-request with non-blank text and no
`sampleRate` field at all is accepted — `Number(undefined || 24000)` is
`24000` — and so is one with the string `"24000"`, which is numerically
coerced; in both cases the handler proceeds to the raw-PCM synthesis step
instead of responding 400. -/
theorem vapi_sampleRate_default_coerce (backend : Backend) (dm dv : String)
    (header : Option String) (t : String) (now : Int) (c : Cache)
    (ht : jsTrim t ≠ "") :
    vapiHandler backend dm dv none header
      (some ⟨some "voice-request", some t, .undef⟩) now c =
      vapiSynthStep backend dm dv t now c ∧
    vapiHandler backend dm dv none header
      (some ⟨some "voice-request", some t, .str "24000"⟩) now c =
      vapiSynthStep backend dm dv t now c ∧
    jsToNumber (jsOrSR .undef (.num 24000)) = some 24000 ∧
    jsToNumber (jsOrSR (.str "24000") (.num 24000)) = some 24000 := by
  have h1 : jsOrSR (SRVal.str "24000") (SRVal.num 24000) =
      SRVal.str "24000" := by decide
  have h2 : jsToNumber (SRVal.str "24000") = some 24000 := by decide
  refine ⟨?_, ?_, by decide, by decide⟩
  · simp [vapiHandler, vapiAuthFails, vapiAfterAuth, jsOrSR, srTruthy,
      jsToNumber, jsOrStr_some_empty, ht]
  · simp [vapiHandler, vapiAuthFails, vapiAfterAuth, h1, h2,
      jsOrStr_some_empty, ht]

/-- Witness for C10: text `"Hello"`, no sampleRate field and the string
`"24000"` both reach the synthesis step. -/
theorem vapi_sampleRate_default_coerce_witness :
    vapiHandler stubBackend "m1" "Kore" none none
      (some ⟨some "voice-request", some "Hello", .undef⟩) 0 [] =
      vapiSynthStep stubBackend "m1" "Kore" "Hello" 0 [] ∧
    vapiHandler stubBackend "m1" "Kore" none none
      (some ⟨some "voice-request", some "Hello", .str "24000"⟩) 0 [] =
      vapiSynthStep stubBackend "m1" "Kore" "Hello" 0 [] ∧
    jsToNumber (jsOrSR .undef (.num 24000)) = some 24000 ∧
    jsToNumber (jsOrSR (.str "24000") (.num 24000)) = some 24000 :=
  vapi_sampleRate_default_coerce stubBackend "m1" "Kore" none "Hello" 0 []
    (by decide)
